import Mathlib

/-!
Shallow embedding of the RiskWise stock server (rotoshh/stock-serverV2).

The numeric model uses exact rationals (`ℚ`) for JavaScript numbers; the
only floating-point-specific operations the verified claims depend on are
`Math.round` and `Number.prototype.toFixed`, both of which round ties
toward +∞ on the scaled value and are modelled exactly below.
Timestamps (`Date.now()`) are modelled as integers (milliseconds).
-/

namespace RiskAnalyzer

/-- The fixed sub-signal weights of `riskAnalyzer.js` (`WEIGHTS`, lines 17-32),
as exact rationals. -/
structure Weights where
  beta : ℚ
  volatility : ℚ
  sharpe : ℚ
  drawdown : ℚ
  volumeVol : ℚ
  debtToEquity : ℚ
  interestCoverage : ℚ
  fcfStability : ℚ
  earningsVariability : ℚ
  relativeStrength : ℚ
  eventRisk : ℚ
  vix : ℚ
  sectorVolatility : ℚ
  sentiment : ℚ

/-- `WEIGHTS` constant from `riskAnalyzer.js`. -/
def WEIGHTS : Weights :=
  { beta := 10/100
    volatility := 10/100
    sharpe := 5/100
    drawdown := 5/100
    volumeVol := 5/100
    debtToEquity := 5/100
    interestCoverage := 5/100
    fcfStability := 5/100
    earningsVariability := 5/100
    relativeStrength := 5/100
    eventRisk := 10/100
    vix := 3/100
    sectorVolatility := 3/100
    sentiment := 4/100 }

/-- Sum of the fourteen `WEIGHTS` fields, in the order they appear in the
source. -/
def weightsSum : ℚ :=
  WEIGHTS.beta + WEIGHTS.volatility + WEIGHTS.sharpe + WEIGHTS.drawdown +
  WEIGHTS.volumeVol + WEIGHTS.debtToEquity + WEIGHTS.interestCoverage +
  WEIGHTS.fcfStability + WEIGHTS.earningsVariability +
  WEIGHTS.relativeStrength + WEIGHTS.eventRisk + WEIGHTS.vix +
  WEIGHTS.sectorVolatility + WEIGHTS.sentiment

/-- `normalize(value, min, max)` from `riskAnalyzer.js` (lines 35-40):
`none` models a `null`/`undefined`/`NaN` input, which yields `0.5`. -/
def normalize (value : Option ℚ) (lo hi : ℚ) : ℚ :=
  match value with
  | none => 1/2
  | some v => if v ≤ lo then 0 else if v ≥ hi then 1 else (v - lo) / (hi - lo)

/-- The normalized sub-scores feeding the composite weighted sum
(`riskAnalyzer.js` lines 289-306). Each is intended to lie in `[0,1]`. -/
structure SubScores where
  betaScore : ℚ
  volScore : ℚ
  sharpeScore : ℚ
  drawdownScore : ℚ
  debtScore : ℚ
  interestCoverageScore : ℚ
  fcfScore : ℚ
  earningsVarScore : ℚ
  rsScore : ℚ
  eventRiskScore : ℚ
  vixScore : ℚ
  sectorVolScore : ℚ
  sentimentScore : ℚ

/-- The composite weighted sum of `riskAnalyzer.js` (lines 309-324), term by
term as written in the source: the `volumeVol` slot is the constant `0.5`
placeholder and the `earningsVariability` slot multiplies
`(1 - earningsVarScore)`. -/
def composite (s : SubScores) : ℚ :=
  WEIGHTS.beta * s.betaScore +
  WEIGHTS.volatility * s.volScore +
  WEIGHTS.sharpe * s.sharpeScore +
  WEIGHTS.drawdown * s.drawdownScore +
  WEIGHTS.volumeVol * (1/2) +
  WEIGHTS.debtToEquity * s.debtScore +
  WEIGHTS.interestCoverage * s.interestCoverageScore +
  WEIGHTS.fcfStability * s.fcfScore +
  WEIGHTS.earningsVariability * (1 - s.earningsVarScore) +
  WEIGHTS.relativeStrength * s.rsScore +
  WEIGHTS.eventRisk * s.eventRiskScore +
  WEIGHTS.vix * s.vixScore +
  WEIGHTS.sectorVolatility * s.sectorVolScore +
  WEIGHTS.sentiment * s.sentimentScore

/-- JavaScript `Math.round`: rounds to the nearest integer, ties toward +∞. -/
def jsRound (x : ℚ) : ℤ := ⌊x + 1/2⌋

/-- `overallRiskScore` computation (`riskAnalyzer.js` line 327):
`Math.min(10, Math.max(1, Math.round(composite * 9 + 1)))`. -/
def overallScore (c : ℚ) : ℤ := min 10 (max 1 (jsRound (c * 9 + 1)))

/-- Result object of `analyzeStockRisk`; only the fields the claims
mention are tracked. `explanationError` is `some e` exactly on the
error-fallback path (lines 357-368). -/
structure RiskResult where
  overallRiskScore : ℤ
  beta : ℚ
  volatility : ℚ
  sentiment : ℚ
  earningsImpact : ℚ
  explanationError : Option String

/-- Raw analyzer state after all data fetching succeeded: the sub-scores
computed in step 8 together with the headline factors echoed in the
result. -/
structure AnalyzerData where
  scores : SubScores
  beta : ℚ
  volComposite : ℚ
  sentiment : ℚ
  earningsImpact : ℚ

/-- `analyzeStockRisk` (`riskAnalyzer.js` lines 175-369), modelled over the
outcome of its scoring pipeline: `.ok d` is a run in which the pipeline
reached step 9 with data `d`; `.error e` is any error reaching the outer
`catch` handler (e.g. total backend failure), which returns the neutral
fallback with `overallRiskScore = 5` instead of raising. -/
def analyzeStockRisk (input : Except String AnalyzerData) : RiskResult :=
  match input with
  | .error e =>
      { overallRiskScore := 5
        beta := 1
        volatility := 0
        sentiment := 1/2
        earningsImpact := 0
        explanationError := some e }
  | .ok d =>
      { overallRiskScore := overallScore (composite d.scores)
        beta := d.beta
        volatility := d.volComposite
        sentiment := d.sentiment
        earningsImpact := d.earningsImpact
        explanationError := none }

end RiskAnalyzer

namespace RiskAnalyzer

/-- C1: for every pipeline outcome, `analyzeStockRisk` yields an integer
`overallRiskScore` with `1 ≤ score ≤ 10`, and every run whose error reaches
the outer handler returns (rather than raises) a result whose score is
exactly `5`. -/
theorem analyzeStockRisk_score_bounds_and_fallback
    (input : Except String AnalyzerData) :
    (1 ≤ (analyzeStockRisk input).overallRiskScore ∧
      (analyzeStockRisk input).overallRiskScore ≤ 10) ∧
    (∀ e : String,
      (analyzeStockRisk (.error e)).overallRiskScore = 5) := by
  refine ⟨?_, fun e => rfl⟩
  cases input with
  | error e => exact ⟨by norm_num [analyzeStockRisk], by norm_num [analyzeStockRisk]⟩
  | ok d =>
      constructor
      · show (1 : ℤ) ≤ overallScore (composite d.scores)
        unfold overallScore
        exact le_min (by norm_num) (le_max_left 1 _)
      · show overallScore (composite d.scores) ≤ 10
        exact min_le_left 10 _

/-- C6 counterexample: the fourteen `WEIGHTS` sub-signal weights sum to
`0.8`, not to `1`. -/
theorem weightsSum_ne_one : weightsSum = 4/5 ∧ weightsSum ≠ 1 := by
  constructor <;> norm_num [weightsSum, WEIGHTS]

/-- C6 amended: the `WEIGHTS` sub-signal weights sum to exactly `0.8`, every
weight is nonnegative, and the composite weighted sum of sub-scores each in
`[0,1]` lies in `[0, 0.8]`, hence in `[0,1]`. -/
theorem composite_bounds (s : SubScores)
    (hb : 0 ≤ s.betaScore ∧ s.betaScore ≤ 1)
    (hv : 0 ≤ s.volScore ∧ s.volScore ≤ 1)
    (hs : 0 ≤ s.sharpeScore ∧ s.sharpeScore ≤ 1)
    (hd : 0 ≤ s.drawdownScore ∧ s.drawdownScore ≤ 1)
    (hde : 0 ≤ s.debtScore ∧ s.debtScore ≤ 1)
    (hic : 0 ≤ s.interestCoverageScore ∧ s.interestCoverageScore ≤ 1)
    (hf : 0 ≤ s.fcfScore ∧ s.fcfScore ≤ 1)
    (he : 0 ≤ s.earningsVarScore ∧ s.earningsVarScore ≤ 1)
    (hr : 0 ≤ s.rsScore ∧ s.rsScore ≤ 1)
    (hev : 0 ≤ s.eventRiskScore ∧ s.eventRiskScore ≤ 1)
    (hvx : 0 ≤ s.vixScore ∧ s.vixScore ≤ 1)
    (hsv : 0 ≤ s.sectorVolScore ∧ s.sectorVolScore ≤ 1)
    (hsn : 0 ≤ s.sentimentScore ∧ s.sentimentScore ≤ 1) :
    weightsSum = 4/5 ∧
    0 ≤ composite s ∧ composite s ≤ 4/5 ∧ composite s ≤ 1 := by
  obtain ⟨hb0, hb1⟩ := hb
  obtain ⟨hv0, hv1⟩ := hv
  obtain ⟨hs0, hs1⟩ := hs
  obtain ⟨hd0, hd1⟩ := hd
  obtain ⟨hde0, hde1⟩ := hde
  obtain ⟨hic0, hic1⟩ := hic
  obtain ⟨hf0, hf1⟩ := hf
  obtain ⟨he0, he1⟩ := he
  obtain ⟨hr0, hr1⟩ := hr
  obtain ⟨hev0, hev1⟩ := hev
  obtain ⟨hvx0, hvx1⟩ := hvx
  obtain ⟨hsv0, hsv1⟩ := hsv
  obtain ⟨hsn0, hsn1⟩ := hsn
  refine ⟨by norm_num [weightsSum, WEIGHTS], ?_, ?_, ?_⟩ <;>
    · simp only [composite, WEIGHTS]
      linarith

/-- Witness for the amended C6 theorem at the all-`1/2` sub-score vector. -/
theorem composite_bounds_witness :
    let s : SubScores :=
      { betaScore := 1/2, volScore := 1/2, sharpeScore := 1/2
        drawdownScore := 1/2, debtScore := 1/2
        interestCoverageScore := 1/2, fcfScore := 1/2
        earningsVarScore := 1/2, rsScore := 1/2, eventRiskScore := 1/2
        vixScore := 1/2, sectorVolScore := 1/2, sentimentScore := 1/2 }
    weightsSum = 4/5 ∧ 0 ≤ composite s ∧ composite s ≤ 4/5 ∧ composite s ≤ 1 :=
  composite_bounds _ (by norm_num) (by norm_num) (by norm_num) (by norm_num)
    (by norm_num) (by norm_num) (by norm_num) (by norm_num) (by norm_num)
    (by norm_num) (by norm_num) (by norm_num) (by norm_num)

end RiskAnalyzer

namespace Server

/-- JavaScript `Number.prototype.toFixed(4)` followed by `Number(...)`:
rounds to 4 decimal places, ties toward the larger value (per the spec of
`toFixed`, which picks the larger candidate on ties). -/
def toFixed4 (x : ℚ) : ℚ := (⌊x * 10000 + 1/2⌋ : ℚ) / 10000

/-- `toFixed(2)` analogue, used for `allocatedLoss`. -/
def toFixed2 (x : ℚ) : ℚ := (⌊x * 100 + 1/2⌋ : ℚ) / 100

/-- One stock entry of a stored portfolio
(`portfolio.stocks[symbol]` in `index.js`). `Option` fields model
absent/null JSON fields; stored numbers are exact rationals. -/
structure Position where
  shares : ℚ
  entryPrice : ℚ
  lastPrice : Option ℚ
  overallRisk : Option ℚ
  risk : Option ℚ
  stopLoss : Option ℚ

/-- A position together with the outcome of this cycle's price fetch for
its symbol (`prices[symbol]` in `recalcPortfolioStopLosses`, lines 214-219:
`null` when the fetch failed). -/
structure PEntry where
  pos : Position
  fetched : Option ℚ

/-- `Number(s.overallRisk) || Number(s.risk) || 0`
(`recalcPortfolioStopLosses`, line 238): the first non-zero present value,
else `0`. -/
def riskOf (s : Position) : ℚ :=
  if s.overallRisk.getD 0 ≠ 0 then s.overallRisk.getD 0 else s.risk.getD 0

/-- The price chosen for a symbol this cycle (lines 215-218): the stored
`lastPrice` when it is a number, otherwise the fetch result (or null). -/
def priceOf (e : PEntry) : Option ℚ :=
  match e.pos.lastPrice with
  | some p => some p
  | none => e.fetched

/-- `const current = Number(prices[symbol] || entry || 0)` (line 227). -/
def currentOf (e : PEntry) : ℚ :=
  let pr := (priceOf e).getD 0
  if pr ≠ 0 then pr else if e.pos.entryPrice ≠ 0 then e.pos.entryPrice else 0

/-- `posValues[symbol].entryPrice = entry || current` (line 229). -/
def posEntryOf (e : PEntry) : ℚ :=
  if e.pos.entryPrice ≠ 0 then e.pos.entryPrice else currentOf e

/-- `positionValue = shares * current` (line 228). -/
def posValueOf (e : PEntry) : ℚ := e.pos.shares * currentOf e

/-- `portfolioValue`: sum of position values (lines 221-231). -/
def portfolioValue (ps : List PEntry) : ℚ := (ps.map posValueOf).sum

/-- `sumRisk`: sum of the stored risk scores (lines 234-241). -/
def sumRisk (ps : List PEntry) : ℚ := (ps.map (fun e => riskOf e.pos)).sum

/-- Per-instrument allocation weight (lines 243-249): risk-proportional
when `sumRisk > 0`, else the uniform `1 / n` fallback. -/
def weightOf (ps : List PEntry) (e : PEntry) : ℚ :=
  if sumRisk ps ≤ 0 then 1 / (ps.length : ℚ) else riskOf e.pos / sumRisk ps

/-- `totalAllowedLossAmount = portfolioValue * (maxLossPercent / 100)`
(lines 251-252). -/
def totalAllowedLoss (ps : List PEntry) (maxLossPercent : ℚ) : ℚ :=
  portfolioValue ps * (maxLossPercent / 100)

/-- `allocatedLoss = totalAllowedLossAmount * weights[symbol]` (line 259). -/
def allocatedLossOf (ps : List PEntry) (maxLossPercent : ℚ) (e : PEntry) : ℚ :=
  totalAllowedLoss ps maxLossPercent * weightOf ps e

/-- `allowedFrac` (lines 260-261): `allocatedLoss / pv` when `pv > 0`, else
`0`; negative (or non-finite) values are reset to `0`. There is no upper
clamp. -/
def allowedFracOf (ps : List PEntry) (maxLossPercent : ℚ) (e : PEntry) : ℚ :=
  let pv := posValueOf e
  let f := if pv > 0 then allocatedLossOf ps maxLossPercent e / pv else 0
  if f < 0 then 0 else f

/-- `stopPrice = entry * (1 - allowedFrac)`, floored at `0`, then rounded
via `toFixed(4)` (lines 262-264). -/
def stopPriceOf (ps : List PEntry) (maxLossPercent : ℚ) (e : PEntry) : ℚ :=
  toFixed4 (max 0 (posEntryOf e * (1 - allowedFracOf ps maxLossPercent e)))

/-- Epsilon test of the update loop (line 270):
`prev === null || Math.abs(prev - newStop) > 0.01`. -/
def stopNeedsUpdate (prev : Option ℚ) (newStop : ℚ) : Bool :=
  match prev with
  | none => true
  | some p => decide (|p - newStop| > 1/100)

/-- The per-instrument update step (lines 267-289): returns the stored
`stopLoss` after the step and whether the stoploss-updated notification
fired. -/
def applyStopUpdate (prev : Option ℚ) (newStop : ℚ) : Option ℚ × Bool :=
  if stopNeedsUpdate prev newStop then (some newStop, true) else (prev, false)

/-- One instrument's outcome inside a portfolio recomputation:
`(stored stopLoss afterwards, notification fired)`. -/
def recalcInstrument (ps : List PEntry) (maxLossPercent : ℚ) (e : PEntry) :
    Option ℚ × Bool :=
  applyStopUpdate e.pos.stopLoss (stopPriceOf ps maxLossPercent e)

end Server

namespace Server

/-- Two-position example portfolio: 50 shares at price 100 each (portfolio
value 10000), stored risk scores 7 and 3. -/
def exA : PEntry := ⟨⟨50, 100, some 100, some 7, none, none⟩, none⟩

/-- Second position of the two-position example. -/
def exB : PEntry := ⟨⟨50, 100, some 100, some 3, none, none⟩, none⟩

/-- The two-position example portfolio for the allocation scenario. -/
def ex3 : List PEntry := [exA, exB]

/-- C3: in a portfolio recomputation over a non-empty position list,
if the sum of stored risk scores is positive then each weight is
`riskScore / sumRisk` and the weights sum to exactly 1; if all stored risk
scores are zero (or unset, read as zero), every weight is exactly `1/n`. -/
theorem recalc_weights_sum (ps : List PEntry) (_hne : ps ≠ []) :
    (0 < sumRisk ps →
      (∀ e ∈ ps, weightOf ps e = riskOf e.pos / sumRisk ps) ∧
      (ps.map (weightOf ps)).sum = 1) ∧
    ((∀ e ∈ ps, riskOf e.pos = 0) →
      ∀ e ∈ ps, weightOf ps e = 1 / (ps.length : ℚ)) := by
  constructor
  · intro hpos
    have hns : ¬ sumRisk ps ≤ 0 := not_le.mpr hpos
    constructor
    · intro e _
      simp [weightOf, hns]
    · have hmap : ps.map (weightOf ps)
          = ps.map (fun e => riskOf e.pos * (sumRisk ps)⁻¹) := by
        simp [weightOf, hns, div_eq_mul_inv]
      rw [hmap, List.sum_map_mul_right]
      exact mul_inv_cancel₀ (ne_of_gt hpos)
  · intro hzero e _
    have hs : sumRisk ps = 0 := by
      apply List.sum_eq_zero
      intro x hx
      obtain ⟨p, hp, rfl⟩ := List.mem_map.mp hx
      exact hzero p hp
    simp [weightOf, hs]

/-- Witness for C3 at the two-position example with risk scores 7 and 3. -/
theorem recalc_weights_sum_witness :
    ex3 ≠ [] ∧ 0 < sumRisk ex3 ∧ (ex3.map (weightOf ex3)).sum = 1 := by
  have hne : ex3 ≠ [] := by simp [ex3]
  have hpos : 0 < sumRisk ex3 := by
    norm_num [sumRisk, riskOf, ex3, exA, exB]
  exact ⟨hne, hpos, ((recalc_weights_sum ex3 hne).1 hpos).2⟩

/-- C4: the total allowed loss is portfolio value times `maxLossPercent/100`
and each allocated loss is the total times the instrument's weight; in the
$10,000 / 70-30 / 5% scenario the total is $500 and the heavy position
gets $350. -/
theorem allocation_formula :
    (∀ (ps : List PEntry) (mlp : ℚ) (e : PEntry),
      totalAllowedLoss ps mlp = portfolioValue ps * (mlp / 100) ∧
      allocatedLossOf ps mlp e = totalAllowedLoss ps mlp * weightOf ps e) ∧
    totalAllowedLoss ex3 5 = 500 ∧
    weightOf ex3 exA = 7/10 ∧
    allocatedLossOf ex3 5 exA = 350 := by
  refine ⟨fun ps mlp e => ⟨rfl, rfl⟩, ?_, ?_, ?_⟩
  · norm_num [totalAllowedLoss, portfolioValue, posValueOf, currentOf,
      priceOf, ex3, exA, exB]
  · norm_num [weightOf, sumRisk, riskOf, ex3, exA, exB]
  · norm_num [allocatedLossOf, totalAllowedLoss, portfolioValue, posValueOf,
      currentOf, priceOf, weightOf, sumRisk, riskOf, ex3, exA, exB]

/-- C5: within one recomputation, an instrument with a stored stop price
`old` has its `stopLoss` set to the new stop and fires the stoploss-updated
notification iff `|old - newStop| > 0.01`; otherwise the stored value is
unchanged and nothing fires. -/
theorem stoploss_update_iff (ps : List PEntry) (mlp : ℚ) (e : PEntry)
    (old : ℚ) (h : e.pos.stopLoss = some old) :
    ((recalcInstrument ps mlp e).2 = true ↔
      |old - stopPriceOf ps mlp e| > 1/100) ∧
    ((recalcInstrument ps mlp e).2 = true →
      (recalcInstrument ps mlp e).1 = some (stopPriceOf ps mlp e)) ∧
    ((recalcInstrument ps mlp e).2 = false →
      (recalcInstrument ps mlp e).1 = some old) := by
  unfold recalcInstrument applyStopUpdate stopNeedsUpdate
  rw [h]
  by_cases hgt : |old - stopPriceOf ps mlp e| > 1/100
  · have hgt' := hgt
    simp only [gt_iff_lt, one_div] at hgt'
    simp [hgt, hgt']
  · have hgt' := hgt
    simp only [gt_iff_lt, one_div] at hgt'
    simp [hgt, hgt']

/-- Single-position example with a stored stop price of 90. -/
def ex5 : PEntry := ⟨⟨1, 100, some 100, some 5, none, some 90⟩, none⟩

/-- Witness for C5: with one 1-share position at price 100 (stored stop 90)
and max loss 5%, the new stop is 95 and the update fires. -/
theorem stoploss_update_iff_witness :
    ex5.pos.stopLoss = some 90 ∧
    (((recalcInstrument [ex5] 5 ex5).2 = true ↔
        |(90 : ℚ) - stopPriceOf [ex5] 5 ex5| > 1/100) ∧
      ((recalcInstrument [ex5] 5 ex5).2 = true →
        (recalcInstrument [ex5] 5 ex5).1 = some (stopPriceOf [ex5] 5 ex5)) ∧
      ((recalcInstrument [ex5] 5 ex5).2 = false →
        (recalcInstrument [ex5] 5 ex5).1 = some 90)) :=
  ⟨rfl, stoploss_update_iff [ex5] 5 ex5 90 rfl⟩

/-- Small position carrying most of the risk: 1 share at 100, risk 9. -/
def ex7A : PEntry := ⟨⟨1, 100, some 100, some 9, none, none⟩, none⟩

/-- Large calm position: 9 shares at 100 (value 900), risk 1. -/
def ex7B : PEntry := ⟨⟨9, 100, some 100, some 1, none, none⟩, none⟩

/-- Two-position portfolio concentrating risk weight 0.9 on the small
position. -/
def ex7 : List PEntry := [ex7A, ex7B]

/-- C7 counterexample: the allowed loss fraction is not clamped to `[0,1)`:
with portfolio value 1000, risk weight 0.9 on a 100-value position and max
loss 50%, the fraction used to derive the stop price is `4.5`. -/
theorem allowedFrac_not_clamped :
    allowedFracOf ex7 50 ex7A = 9/2 ∧ ¬ allowedFracOf ex7 50 ex7A < 1 := by
  have h : allowedFracOf ex7 50 ex7A = 9/2 := by
    norm_num [allowedFracOf, allocatedLossOf, totalAllowedLoss,
      portfolioValue, posValueOf, currentOf, priceOf, weightOf, sumRisk,
      riskOf, ex7, ex7A, ex7B]
  refine ⟨h, ?_⟩
  rw [h]
  norm_num

/-- C7 amended: the allowed loss fraction is clamped below at `0` (it is
always nonnegative, but may reach or exceed `1`), and the derived stop
price `entry * (1 - frac)` is floored at `0`, so the stored stop price is
never negative. -/
theorem allowedFrac_nonneg_stop_floored (ps : List PEntry) (mlp : ℚ)
    (e : PEntry) :
    0 ≤ allowedFracOf ps mlp e ∧ 0 ≤ stopPriceOf ps mlp e := by
  constructor
  · simp only [allowedFracOf]
    split
    · split
      · norm_num
      · next hnot => exact le_of_not_lt hnot
    · split <;> norm_num
  · unfold stopPriceOf toFixed4
    apply div_nonneg _ (by norm_num)
    have harg : (0 : ℚ) ≤ max 0 (posEntryOf e * (1 - allowedFracOf ps mlp e)) * 10000 + 1/2 := by
      have := le_max_left (0 : ℚ) (posEntryOf e * (1 - allowedFracOf ps mlp e))
      nlinarith
    exact_mod_cast Int.floor_nonneg.mpr harg

end Server

namespace Server

/-- `MIN_RISK_INTERVAL_MS` default (index.js line 24): 5 minutes. -/
def MIN_RISK_INTERVAL_MS : ℤ := 5 * 60 * 1000

/-- Outcome of one `calculateFullRisk` call (`index.js` lines 294-331):
`result` is the returned value (`none` models the `null` returns),
`lastRiskAt` is the stored per-symbol timestamp afterwards, and
`notifiedRiskUpdate` records whether the risk-update SSE message was
pushed. -/
structure RiskCalcOutcome where
  result : Option ℤ
  lastRiskAt : ℤ
  notifiedRiskUpdate : Bool

/-- `calculateFullRisk(userId, symbol, currentPrice, portfolio, {force})`
for a present `portfolio.stocks[symbol]`, over the stored `lastRiskAt`
(`none` models an unset field, normalised to `0` by line 300) and the
analyzer pipeline outcome. A non-forced call inside the cooldown window
returns `null` without touching state (lines 302-306); every executing
call stamps `lastRiskAt = now` (line 309) before running the analyzer. -/
def calculateFullRisk (now : ℤ) (lastRiskAt : Option ℤ) (force : Bool)
    (pipeline : Except String RiskAnalyzer.AnalyzerData) : RiskCalcOutcome :=
  let last := lastRiskAt.getD 0
  if force = false ∧ now - last < MIN_RISK_INTERVAL_MS then
    { result := none, lastRiskAt := last, notifiedRiskUpdate := false }
  else
    let analysis := RiskAnalyzer.analyzeStockRisk pipeline
    { result := some analysis.overallRiskScore
      lastRiskAt := now
      notifiedRiskUpdate := true }

/-- 24 hours in milliseconds: the event de-duplication window
(`index.js` line 435). -/
def DEDUP_WINDOW_MS : ℤ := 24 * 60 * 60 * 1000

/-- The de-duplication prefix of `handleEventForTicker` (`index.js` lines
431-436), per (symbol, event identity): given the call time and the
recorded first-seen timestamp (if any), returns whether the event is
forwarded (the function proceeds past line 436 to trigger risk
recomputation and notifications) and the recorded timestamp afterwards. -/
def handleEventForTicker (now : ℤ) (seenAt : Option ℤ) : Bool × Option ℤ :=
  match seenAt with
  | some t => if now - t < DEDUP_WINDOW_MS then (false, some t) else (true, some now)
  | none => (true, some now)

/-- Price-provider identifiers of `fetchPriceFromProviders`. -/
inductive PriceSource where
  | alpaca
  | finnhub
deriving DecidableEq

/-- Outcome of one provider call: a price, or an error carrying the
optional HTTP status (`some 429` models an explicit rate-limit
response). -/
def ProviderResult := Except (Option ℕ) ℚ

/-- `fetchPriceFromProviders(symbol, preferAlpacaKeys)` from the
`src/unnamed/part_000` iteration (lines 160-188): with brokerage keys
present it tries Alpaca first and on ANY Alpaca failure (429 included,
which only changes the log line) falls back to Finnhub; without keys it
goes straight to Finnhub; a Finnhub failure is re-raised. -/
def fetchPriceFromProviders (hasAlpacaKeys : Bool)
    (alpaca finnhub : ProviderResult) :
    Except (Option ℕ) (ℚ × PriceSource) :=
  if hasAlpacaKeys then
    match alpaca with
    | .ok p => .ok (p, PriceSource.alpaca)
    | .error _ =>
        match finnhub with
        | .ok p => .ok (p, PriceSource.finnhub)
        | .error err => .error err
  else
    match finnhub with
    | .ok p => .ok (p, PriceSource.finnhub)
    | .error err => .error err

/-- Per-instrument stored state touched by the monitoring loop
(`checkAndUpdatePrices`, `index.js` lines 374-408): the cached user price
and the position's `lastPrice`. -/
structure SymbolLoopState where
  userPrice : Option ℚ
  lastPrice : Option ℚ

/-- The state effect of one symbol iteration of the monitoring loop up to
its `catch` (lines 375-408): the price fetch is the first awaited step
inside the `try`; when it fails the `catch` logs and the loop moves on, so
the instrument's stored state is unchanged for this cycle. On success the
fetched price is written to the per-user cache and the position. -/
def checkSymbolStep (st : SymbolLoopState)
    (fetch : Except (Option ℕ) (ℚ × PriceSource)) : SymbolLoopState :=
  match fetch with
  | .error _ => st
  | .ok (p, _) => { st with userPrice := some p, lastPrice := some p }

end Server

namespace Server

/-- C2: a non-forced `calculateFullRisk` trigger inside the cooldown window
is suppressed — it returns `null`, recomputes nothing, notifies nothing and
leaves `lastRiskAt` (hence the open window) unchanged; every call that
executes, forced or not, stamps `lastRiskAt = now`; in particular a forced
trigger always re-arms the window. -/
theorem calculateFullRisk_cooldown (now : ℤ) (lastRiskAt : Option ℤ)
    (force : Bool) (pipeline : Except String RiskAnalyzer.AnalyzerData) :
    (force = false → now - lastRiskAt.getD 0 < MIN_RISK_INTERVAL_MS →
      calculateFullRisk now lastRiskAt force pipeline =
        { result := none, lastRiskAt := lastRiskAt.getD 0,
          notifiedRiskUpdate := false }) ∧
    (¬ (force = false ∧ now - lastRiskAt.getD 0 < MIN_RISK_INTERVAL_MS) →
      (calculateFullRisk now lastRiskAt force pipeline).result ≠ none ∧
      (calculateFullRisk now lastRiskAt force pipeline).lastRiskAt = now) ∧
    (force = true →
      (calculateFullRisk now lastRiskAt force pipeline).lastRiskAt = now) := by
  refine ⟨?_, ?_, ?_⟩
  · intro hf hlt
    simp [calculateFullRisk, hf, hlt]
  · intro hnot
    simp [calculateFullRisk, hnot]
  · intro hf
    have hnot : ¬ (force = false ∧
        now - lastRiskAt.getD 0 < MIN_RISK_INTERVAL_MS) := by
      rintro ⟨hff, -⟩
      rw [hf] at hff
      exact Bool.noConfusion hff
    simp [calculateFullRisk, hnot]

/-- Witness for C2 at `now = 1000`, `lastRiskAt = 900` (window open). -/
theorem calculateFullRisk_cooldown_witness :
    ((false = false → (1000 : ℤ) - (some (900 : ℤ)).getD 0 < MIN_RISK_INTERVAL_MS →
      calculateFullRisk 1000 (some 900) false (.error "backend down") =
        { result := none, lastRiskAt := (some (900 : ℤ)).getD 0,
          notifiedRiskUpdate := false }) ∧
    (¬ (false = false ∧ (1000 : ℤ) - (some (900 : ℤ)).getD 0 < MIN_RISK_INTERVAL_MS) →
      (calculateFullRisk 1000 (some 900) false (.error "backend down")).result ≠ none ∧
      (calculateFullRisk 1000 (some 900) false (.error "backend down")).lastRiskAt = 1000) ∧
    (false = true →
      (calculateFullRisk 1000 (some 900) false (.error "backend down")).lastRiskAt = 1000)) ∧
    ((calculateFullRisk 1000 (some 900) true (.error "backend down")).lastRiskAt = 1000) :=
  ⟨calculateFullRisk_cooldown 1000 (some 900) false (.error "backend down"),
    (calculateFullRisk_cooldown 1000 (some 900) true
      (.error "backend down")).2.2 rfl⟩

/-- C8: the first sighting of an event identity records it and forwards the
trigger; a second sighting within 24 hours is dropped before any risk
recomputation or notification, and the recorded timestamp is not
overwritten, so the identity is recorded exactly once and exactly one
trigger is forwarded. -/
theorem handleEventForTicker_dedup (t0 t1 : ℤ)
    (h : t1 - t0 < DEDUP_WINDOW_MS) :
    handleEventForTicker t0 none = (true, some t0) ∧
    handleEventForTicker t1 (some t0) = (false, some t0) := by
  refine ⟨rfl, ?_⟩
  simp [handleEventForTicker, h]

/-- Witness for C8: second sighting one hour after the first. -/
theorem handleEventForTicker_dedup_witness :
    ((3600000 : ℤ) - 0 < DEDUP_WINDOW_MS) ∧
    (handleEventForTicker 0 none = (true, some 0) ∧
      handleEventForTicker 3600000 (some 0) = (false, some 0)) :=
  ⟨by norm_num [DEDUP_WINDOW_MS],
    handleEventForTicker_dedup 0 3600000 (by norm_num [DEDUP_WINDOW_MS])⟩

/-- C9: with brokerage credentials present the fetch tries Alpaca first and
returns its price on success; on any Alpaca failure — an explicit 429
included — it falls back to Finnhub; if both providers fail the call
raises; and in the monitoring loop a failed fetch leaves the instrument's
stored state untouched for this cycle. -/
theorem fetchPrice_fallback_and_skip :
    (∀ p : ℚ, ∀ finnhub : ProviderResult,
      fetchPriceFromProviders true (.ok p) finnhub =
        .ok (p, PriceSource.alpaca)) ∧
    (∀ (alpErr : Option ℕ) (q : ℚ),
      fetchPriceFromProviders true (.error alpErr) (.ok q) =
        .ok (q, PriceSource.finnhub)) ∧
    (∀ q : ℚ, fetchPriceFromProviders true (.error (some 429)) (.ok q) =
      .ok (q, PriceSource.finnhub)) ∧
    (∀ alpErr finErr : Option ℕ,
      fetchPriceFromProviders true (.error alpErr) (.error finErr) =
        .error finErr) ∧
    (∀ (st : SymbolLoopState) (err : Option ℕ),
      checkSymbolStep st (.error err) = st) := by
  exact ⟨fun p finnhub => rfl, fun alpErr q => rfl, fun q => rfl,
    fun alpErr finErr => rfl, fun st err => rfl⟩

end Server

namespace Server

/-- Brokerage credentials posted in `alpacaKeys` (`{key, secret}`). -/
structure AlpacaKeys where
  key : String
  secret : String

/-- The per-user portfolio record stored by `POST /update-portfolio`
(`index.js` line 500): exactly the destructured body fields. -/
structure StoredPortfolio where
  stocks : List (String × Position)
  alpacaKeys : Option AlpacaKeys
  userEmail : Option String
  portfolioRiskLevel : Option ℚ
  totalInvestment : Option ℚ
  maxLossPercent : Option ℚ

/-- Request body of `POST /update-portfolio` (`index.js` line 496). -/
structure UpdateBody where
  userId : String
  stocks : Option (List (String × Position))
  alpacaKeys : Option AlpacaKeys
  userEmail : Option String
  portfolioRiskLevel : Option ℚ
  totalInvestment : Option ℚ
  maxLossPercent : Option ℚ

/-- The in-memory `userPortfolios` map. -/
def PortfolioDB := String → Option StoredPortfolio

/-- `POST /update-portfolio` (`index.js` lines 494-513): rejects with 400
when `userId` or `stocks` is missing/falsy; otherwise stores the body's
fields — `alpacaKeys` included — wholesale under `userId` and answers
200. -/
def updatePortfolio (db : PortfolioDB) (b : UpdateBody) : ℕ × PortfolioDB :=
  if b.userId = "" ∨ b.stocks.isNone then (400, db)
  else
    (200, fun u =>
      if u = b.userId then
        some { stocks := b.stocks.getD []
               alpacaKeys := b.alpacaKeys
               userEmail := b.userEmail
               portfolioRiskLevel := b.portfolioRiskLevel
               totalInvestment := b.totalInvestment
               maxLossPercent := b.maxLossPercent }
      else db u)

/-- `GET /portfolio/:userId` (`index.js` lines 516-522): 404 when the user
has no stored portfolio, otherwise the stored object is serialised
verbatim. -/
def getPortfolio (db : PortfolioDB) (userId : String) :
    Except ℕ StoredPortfolio :=
  match db userId with
  | none => .error 404
  | some p => .ok p

end Server

namespace Server

/-- C10: after a successful `POST /update-portfolio`,
`GET /portfolio/:userId` returns the stored portfolio verbatim — the
`alpacaKeys` credentials supplied in the POST body are present in the
response, not stripped or redacted. -/
theorem getPortfolio_returns_keys (db : PortfolioDB) (b : UpdateBody)
    (m : List (String × Position)) (hid : b.userId ≠ "")
    (hst : b.stocks = some m) :
    (updatePortfolio db b).1 = 200 ∧
    getPortfolio (updatePortfolio db b).2 b.userId =
      .ok { stocks := m
            alpacaKeys := b.alpacaKeys
            userEmail := b.userEmail
            portfolioRiskLevel := b.portfolioRiskLevel
            totalInvestment := b.totalInvestment
            maxLossPercent := b.maxLossPercent } ∧
    (∀ p, getPortfolio (updatePortfolio db b).2 b.userId = .ok p →
      p.alpacaKeys = b.alpacaKeys) := by
  have hcond : ¬ (b.userId = "" ∨ b.stocks.isNone = true) := by
    rintro (h | h)
    · exact hid h
    · rw [hst] at h
      exact Bool.noConfusion h
  have hupd : updatePortfolio db b =
      (200, fun u =>
        if u = b.userId then
          some { stocks := m
                 alpacaKeys := b.alpacaKeys
                 userEmail := b.userEmail
                 portfolioRiskLevel := b.portfolioRiskLevel
                 totalInvestment := b.totalInvestment
                 maxLossPercent := b.maxLossPercent }
        else db u) := by
    unfold updatePortfolio
    rw [if_neg hcond, hst]
    rfl
  have hget : getPortfolio (updatePortfolio db b).2 b.userId =
      .ok { stocks := m
            alpacaKeys := b.alpacaKeys
            userEmail := b.userEmail
            portfolioRiskLevel := b.portfolioRiskLevel
            totalInvestment := b.totalInvestment
            maxLossPercent := b.maxLossPercent } := by
    rw [hupd]
    simp [getPortfolio]
  refine ⟨by rw [hupd], hget, ?_⟩
  intro p hp
  rw [hget] at hp
  cases hp
  rfl

/-- Witness for C10: empty store, user `"u1"`, a one-stock body carrying
concrete Alpaca credentials. -/
theorem getPortfolio_returns_keys_witness :
    let b : UpdateBody :=
      { userId := "u1"
        stocks := some [("AAPL", ⟨10, 150, none, none, none, none⟩)]
        alpacaKeys := some ⟨"AKID", "AKSECRET"⟩
        userEmail := some "a\x40b.c"
        portfolioRiskLevel := none
        totalInvestment := some 1500
        maxLossPercent := some 5 }
    let db : PortfolioDB := fun _ => none
    (updatePortfolio db b).1 = 200 ∧
    getPortfolio (updatePortfolio db b).2 b.userId =
      .ok { stocks := [("AAPL", ⟨10, 150, none, none, none, none⟩)]
            alpacaKeys := b.alpacaKeys
            userEmail := b.userEmail
            portfolioRiskLevel := b.portfolioRiskLevel
            totalInvestment := b.totalInvestment
            maxLossPercent := b.maxLossPercent } ∧
    (∀ p, getPortfolio (updatePortfolio db b).2 b.userId = .ok p →
      p.alpacaKeys = b.alpacaKeys) :=
  getPortfolio_returns_keys _ _ _ (by simp) rfl

end Server
